import Mathlib

/-!
# SentriCard fraud-detection core: shallow embedding and verification

This file embeds the risk-scoring engine of the SentriCard repository
(`backend/services/fraudDetection.js`, function `analyzeTransaction`, and the
statistics/administrative endpoints of
`backend/controllers/transactionController.js`) into Lean 4 and proves
properties of it.

Modelling conventions:
* JavaScript `Number` values that carry money or scores are `ℚ` (the scoring
  arithmetic is exact decimal arithmetic: weights 25, 20, 15, 15, 20, 5 and the
  fractions 0.8, 0.5, 0.6, 0.7).
* Timestamps are `Int` milliseconds since the epoch; `Date.prototype.getHours`
  is modelled in a fixed (UTC) clock as `(ts mod 86400000) / 3600000`.
* The Mongoose `User`/`Transaction` documents become structures with the same
  field names.  Optional schema fields that the scorer guards with `||` become
  `Option`.
* The `try/catch` in `analyzeTransaction` makes the JS function total: the
  embedding is a total Lean function returning a `ScoreResult` whose `error`
  field is `some msg` exactly on the caught path.
* `Date.now()` read inside the frequency factor is an explicit `now : Int`
  parameter.
-/

set_option autoImplicit false

namespace SentriCard

/-- A location, as in both Mongoose schemas (`country`, `city`, `zip`). -/
structure Location where
  country : String
  city : String
  zip : String
  deriving Repr, DecidableEq

/-- A transaction document (`backend/models/Transaction.js`). -/
structure Transaction where
  userId : String
  cardLastFour : String
  amount : ℚ
  merchantName : String
  merchantCategory : String
  location : Location
  timestamp : Int
  ipAddress : String
  deviceId : String
  fraudScore : ℚ
  isFlagged : Bool
  isConfirmedFraud : Bool
  deriving Repr, DecidableEq

/-- The `activeHours` sub-document of a user's spending patterns. -/
structure ActiveHours where
  start : Int
  «end» : Int
  deriving Repr, DecidableEq

/-- The `typicalSpendingPatterns` sub-document of `backend/models/User.js`.
`averageTransactionAmount` is optional in the schema; the scorer reads it as
`... || 100`. -/
structure SpendingPatterns where
  averageTransactionAmount : Option ℚ
  frequentCategories : List String
  frequentLocations : List String
  activeHours : ActiveHours
  deriving Repr, DecidableEq

/-- A user document (`backend/models/User.js`), the fields the scorer reads. -/
structure User where
  name : String
  email : String
  homeLocation : Location
  typicalSpendingPatterns : SpendingPatterns
  deriving Repr, DecidableEq

/-- The object returned by `analyzeTransaction`: on the success path
`{ score, riskFactors, isHighRisk }` (modelled with `error := none`), on the
caught-error path additionally `error: error.message`. -/
structure ScoreResult where
  score : ℚ
  riskFactors : List String
  isHighRisk : Bool
  error : Option String
  deriving Repr, DecidableEq

/-- JavaScript `x || d` for an optional numeric field: `undefined` and `0` are
falsy, any other number is returned unchanged. -/
def jsOr (x : Option ℚ) (d : ℚ) : ℚ :=
  match x with
  | none => d
  | some v => if v = 0 then d else v

/-- JavaScript `s.includes(sub)`: `sub` occurs as a contiguous substring of
`s` (character-wise). -/
def jsIncludes (s sub : String) : Bool :=
  decide (List.IsInfix sub.toList s.toList)

/-- `new Date(ts).getHours()` in a fixed (UTC) clock: the hour-of-day, in
`0..23`, of a millisecond timestamp. -/
def jsGetHours (ts : Int) : Int :=
  (ts.emod 86400000).ediv 3600000

/-- The `weights` table of `analyzeTransaction`. -/
def weights.amount : ℚ := 25
def weights.location : ℚ := 20
def weights.category : ℚ := 15
def weights.time : ℚ := 15
def weights.frequency : ℚ := 20
def weights.device : ℚ := 5

/-- Factor 1 (amount analysis) of `analyzeTransaction`: contribution and the
risk-factor strings it pushes.  `userAvgAmount` is
`user.typicalSpendingPatterns.averageTransactionAmount || 100`. -/
def amountFactor (transaction : Transaction) (user : User) : ℚ × List String :=
  let userAvgAmount := jsOr user.typicalSpendingPatterns.averageTransactionAmount 100
  if transaction.amount > userAvgAmount * 5 then
    (weights.amount, ["Transaction amount 5x higher than user average"])
  else if transaction.amount > userAvgAmount * 3 then
    (weights.amount * 0.8, ["Transaction amount 3x higher than user average"])
  else if transaction.amount > userAvgAmount * 2 then
    (weights.amount * 0.5, ["Transaction amount 2x higher than user average"])
  else
    (0, [])

/-- Factor 2 (location analysis): foreign country gets the full weight, else an
unknown city other than the literal "Online" gets 0.6 of it.  `isKnownLocation`
is the bidirectional-substring scan over `frequentLocations`. -/
def locationFactor (transaction : Transaction) (user : User) : ℚ × List String :=
  let isKnownLocation := user.typicalSpendingPatterns.frequentLocations.any
    (fun loc => jsIncludes transaction.location.city loc ||
                jsIncludes loc transaction.location.city)
  if transaction.location.country ≠ user.homeLocation.country then
    (weights.location, ["Transaction from foreign country"])
  else if !isKnownLocation && transaction.location.city ≠ "Online" then
    (weights.location * 0.6, ["Transaction from unusual city"])
  else
    (0, [])

/-- Factor 3 (merchant category analysis). -/
def categoryFactor (transaction : Transaction) (user : User) : ℚ × List String :=
  let isUnusualCategory :=
    !(user.typicalSpendingPatterns.frequentCategories.contains transaction.merchantCategory)
  if isUnusualCategory then
    (weights.category, ["Unusual merchant category for this user"])
  else
    (0, [])

/-- Factor 4 (time analysis): the transaction hour strictly before
`activeHours.start` or strictly after `activeHours.end`. -/
def timeFactor (transaction : Transaction) (user : User) : ℚ × List String :=
  let transactionHour := jsGetHours transaction.timestamp
  let isOutsideActiveHours :=
    transactionHour < user.typicalSpendingPatterns.activeHours.start ∨
    transactionHour > user.typicalSpendingPatterns.activeHours.«end»
  if isOutsideActiveHours then
    (weights.time, ["Transaction outside typical active hours"])
  else
    (0, [])

/-- The `recentCount` local of factor 5: how many of the recent transactions
have a timestamp strictly after `now - 24h`. -/
def recent24Count (now : Int) (recentTransactions : List Transaction) : ℕ :=
  (recentTransactions.filter (fun t => t.timestamp > now - 24 * 60 * 60 * 1000)).length

/-- Factor 5 (frequency analysis).  The JS code reads `Date.now()`; here the
clock is the explicit `now` argument. -/
def frequencyFactor (now : Int) (recentTransactions : List Transaction) : ℚ × List String :=
  let recentCount := recent24Count now recentTransactions
  if recentCount > 8 then
    (weights.frequency, ["Extremely high transaction frequency (>8 in 24h)"])
  else if recentCount > 5 then
    (weights.frequency * 0.7, ["High transaction frequency (>5 in 24h)"])
  else
    (0, [])

/-- Factor 6 (device analysis): a device id appearing nowhere in the recent
transactions, and not the literal "unknown_device", gets the device weight. -/
def deviceFactor (transaction : Transaction) (recentTransactions : List Transaction) :
    ℚ × List String :=
  let isKnownDevice := recentTransactions.any (fun t => t.deviceId == transaction.deviceId)
  if !isKnownDevice && transaction.deviceId ≠ "unknown_device" then
    (weights.device, ["Transaction from new device"])
  else
    (0, [])

/-- The body of `analyzeTransaction` after the user has been found: the six
factors are evaluated in order, contributions summed into `score` and the
triggered strings appended to `riskFactors` in the same order, and
`isHighRisk := score > 70`. -/
def analyzeTransactionCore (now : Int) (transaction : Transaction) (user : User)
    (recentTransactions : List Transaction) : ScoreResult :=
  let a := amountFactor transaction user
  let l := locationFactor transaction user
  let c := categoryFactor transaction user
  let ti := timeFactor transaction user
  let f := frequencyFactor now recentTransactions
  let d := deviceFactor transaction recentTransactions
  let score := a.1 + l.1 + c.1 + ti.1 + f.1 + d.1
  { score := score
    riskFactors := a.2 ++ l.2 ++ c.2 ++ ti.2 ++ f.2 ++ d.2
    isHighRisk := score > 70
    error := none }

/-- The object the `catch` block of `analyzeTransaction` returns when the body
throws (`User not found` is the only throw site). -/
def errorScoreResult (msg : String) : ScoreResult :=
  { score := 0
    riskFactors := ["Error analyzing transaction"]
    isHighRisk := false
    error := some msg }

/-- `analyzeTransaction` with the user lookup's outcome made explicit: a
missing user makes the body throw `'User not found'`, which the surrounding
`try/catch` converts into `errorScoreResult`; otherwise the scoring body runs.
The error is never re-thrown to the caller. -/
def analyzeTransaction (now : Int) (transaction : Transaction) (user? : Option User)
    (recentTransactions : List Transaction) : ScoreResult :=
  match user? with
  | none => errorScoreResult "User not found"
  | some user => analyzeTransactionCore now transaction user recentTransactions

/-- `processTransaction` (`transactionController.js`): analyze the request
body, then persist it with `fraudScore := analysis.score` and
`isFlagged := analysis.score > 70`. -/
def processTransaction (now : Int) (body : Transaction) (user? : Option User)
    (recentTransactions : List Transaction) : Transaction :=
  let fraudAnalysis := analyzeTransaction now body user? recentTransactions
  { body with
      fraudScore := fraudAnalysis.score
      isFlagged := fraudAnalysis.score > 70 }

/-- `updateFraudStatus` (`transactionController.js`), after its guards: set
`isConfirmedFraud` to the supplied boolean and, when that boolean is `false`,
also clear `isFlagged`. -/
def updateFraudStatus (isConfirmedFraud : Bool) (transaction : Transaction) : Transaction :=
  let t := { transaction with isConfirmedFraud := isConfirmedFraud }
  if isConfirmedFraud = false then { t with isFlagged := false } else t

/-- A JavaScript number as the statistics code can observe it: finite, `NaN`,
or a signed infinity.  Only division can leave the finite fragment here. -/
inductive JSNum where
  | nan : JSNum
  | inf : JSNum
  | negInf : JSNum
  | num : ℚ → JSNum
  deriving Repr, DecidableEq

/-- JavaScript `/` on the fragment the statistics code reaches: `0/0` is
`NaN`, `x/0` for positive (negative) finite `x` is `Infinity`
(`-Infinity`), non-finite operands propagate. -/
def JSNum.div : JSNum → JSNum → JSNum
  | JSNum.num a, JSNum.num b =>
      if b = 0 then
        if a = 0 then JSNum.nan
        else if a > 0 then JSNum.inf else JSNum.negInf
      else JSNum.num (a / b)
  | _, _ => JSNum.nan

/-- JavaScript `*` on the same fragment (`NaN` absorbs; infinities scale by
the sign of a finite nonzero factor, and `∞ * 0` is `NaN`). -/
def JSNum.mul : JSNum → JSNum → JSNum
  | JSNum.num a, JSNum.num b => JSNum.num (a * b)
  | JSNum.nan, _ => JSNum.nan
  | _, JSNum.nan => JSNum.nan
  | JSNum.inf, JSNum.num b =>
      if b = 0 then JSNum.nan else if b > 0 then JSNum.inf else JSNum.negInf
  | JSNum.negInf, JSNum.num b =>
      if b = 0 then JSNum.nan else if b > 0 then JSNum.negInf else JSNum.inf
  | JSNum.num a, JSNum.inf =>
      if a = 0 then JSNum.nan else if a > 0 then JSNum.inf else JSNum.negInf
  | JSNum.num a, JSNum.negInf =>
      if a = 0 then JSNum.nan else if a > 0 then JSNum.negInf else JSNum.inf
  | JSNum.inf, JSNum.inf => JSNum.inf
  | JSNum.inf, JSNum.negInf => JSNum.negInf
  | JSNum.negInf, JSNum.inf => JSNum.negInf
  | JSNum.negInf, JSNum.negInf => JSNum.inf

/-- Render a natural number zero-padded to two digits, for the fractional part
of `toFixed(2)`. -/
def pad2 (n : ℕ) : String :=
  if n < 10 then "0" ++ toString n else toString n

/-- JavaScript `Number.prototype.toFixed(2)`: `NaN` renders as `"NaN"`,
infinities by name, and a finite value as a decimal with exactly two fraction
digits (round-half-up on the exact rational, matching the decimal values the
statistics code produces). -/
def JSNum.toFixed2 : JSNum → String
  | JSNum.nan => "NaN"
  | JSNum.inf => "Infinity"
  | JSNum.negInf => "-Infinity"
  | JSNum.num q =>
      let scaled : Int := round (q * 100)
      let sign := if scaled < 0 then "-" else ""
      sign ++ toString (scaled.natAbs / 100) ++ "." ++ pad2 (scaled.natAbs % 100)

/-- The summary block computed identically by `getTransactionStats`
(`transactionController.js`) and `getFraudStatistics`
(`fraudDetection.js`). -/
structure StatsSummary where
  totalTransactions : ℕ
  flaggedTransactions : ℕ
  confirmedFraudTransactions : ℕ
  flaggedPercentage : String
  deriving Repr, DecidableEq

/-- The count/percentage part of `getTransactionStats`, over an explicit
corpus standing for the `Transaction` collection: `countDocuments()`,
`countDocuments({isFlagged: true})`, `countDocuments({isConfirmedFraud:
true})`, and `(flagged / total * 100).toFixed(2)`. -/
def getTransactionStats (corpus : List Transaction) : StatsSummary :=
  let totalTransactions := corpus.length
  let flaggedTransactions := (corpus.filter (fun t => t.isFlagged)).length
  let confirmedFraudTransactions := (corpus.filter (fun t => t.isConfirmedFraud)).length
  { totalTransactions := totalTransactions
    flaggedTransactions := flaggedTransactions
    confirmedFraudTransactions := confirmedFraudTransactions
    flaggedPercentage :=
      (JSNum.mul (JSNum.div (JSNum.num flaggedTransactions) (JSNum.num totalTransactions))
        (JSNum.num 100)).toFixed2 }

/-- The `summary` object of `getFraudStatistics` (`fraudDetection.js`): the
same three counts and the same `toFixed(2)` percentage expression. -/
def getFraudStatisticsSummary (corpus : List Transaction) : StatsSummary :=
  let totalTransactions := corpus.length
  let flaggedTransactions := (corpus.filter (fun t => t.isFlagged)).length
  let confirmedFraudTransactions := (corpus.filter (fun t => t.isConfirmedFraud)).length
  { totalTransactions := totalTransactions
    flaggedTransactions := flaggedTransactions
    confirmedFraudTransactions := confirmedFraudTransactions
    flaggedPercentage :=
      (JSNum.mul (JSNum.div (JSNum.num flaggedTransactions) (JSNum.num totalTransactions))
        (JSNum.num 100)).toFixed2 }

/-! ## Concrete inputs used by scenario theorems, counterexamples and witnesses -/

/-- A home location shared by the concrete scenarios. -/
def baseLocation : Location :=
  { country := "USA", city := "NYC", zip := "10001" }

/-- A benign concrete transaction: amount 50, frequent category, home country,
hour 12, known device `dev1`. -/
def baseTxn : Transaction :=
  { userId := "u1", cardLastFour := "1234", amount := 50, merchantName := "Store",
    merchantCategory := "groceries", location := baseLocation,
    timestamp := 12 * 3600000, ipAddress := "10.0.0.1", deviceId := "dev1",
    fraudScore := 0, isFlagged := false, isConfirmedFraud := false }

/-- A concrete user: average 100, home country USA, frequent categories
`{groceries}`, active hours 8–23. -/
def baseUser : User :=
  { name := "Alice", email := "alice@example.com", homeLocation := baseLocation,
    typicalSpendingPatterns :=
      { averageTransactionAmount := some 100
        frequentCategories := ["groceries"]
        frequentLocations := []
        activeHours := { start := 8, «end» := 23 } } }

/-- The C1 scenario transaction: amount 550, country Nigeria, category
electronics, hour 14, device `dev1`. -/
def scenarioTxn : Transaction :=
  { baseTxn with
      amount := 550
      merchantCategory := "electronics"
      location := { country := "Nigeria", city := "Lagos", zip := "" }
      timestamp := 14 * 3600000 }

/-- The C1 scenario recent history: two transactions from device `dev1`
within the trailing 24 hours of `scenarioNow`. -/
def scenarioHistory : List Transaction :=
  [{ baseTxn with timestamp := 14 * 3600000 - 1000 },
   { baseTxn with timestamp := 14 * 3600000 - 2000 }]

/-- The clock at which the C1 scenario is scored. -/
def scenarioNow : Int := 14 * 3600000

/-! ## Claim theorems -/

/-- C1: scoring the concrete scenario — profile with average 100, home country
USA, frequent categories {groceries}, active hours 8–23, device dev1 in the
recent history, two recent-history entries inside the trailing 24 hours —
against the transaction with amount 550, country Nigeria, category
electronics, local hour 14 and device dev1 yields score 60 (amount 25 +
location 20 + category 15), `isHighRisk = false`, and exactly the three
risk-factor strings in the order amount, location, category. -/
theorem scenario_foreign_high_amount_unusual_category :
    analyzeTransactionCore scenarioNow scenarioTxn baseUser scenarioHistory =
      { score := 60
        riskFactors := ["Transaction amount 5x higher than user average",
                        "Transaction from foreign country",
                        "Unusual merchant category for this user"]
        isHighRisk := false
        error := none } := by
  simp only [analyzeTransactionCore, amountFactor, locationFactor, categoryFactor, timeFactor,
    frequencyFactor, deviceFactor, recent24Count, scenarioNow, scenarioTxn, baseUser,
    scenarioHistory, baseTxn, baseLocation, jsOr, jsGetHours, jsIncludes, weights.amount,
    weights.location, weights.category, weights.time, weights.frequency, weights.device]
  simp
  norm_num

/-- C2: for every clock, transaction, user-lookup outcome and recent history,
the result's `isHighRisk` holds exactly when the score is strictly greater
than 70 (a score of exactly 70 is not high-risk), over every combination of
the factors; and the `isFlagged` field attached by `processTransaction` is
the same strict comparison of the same score. -/
theorem isHighRisk_iff_score_gt_70 (now : Int) (t : Transaction) (user? : Option User)
    (recent : List Transaction) (body : Transaction) :
    ((analyzeTransaction now t user? recent).isHighRisk = true ↔
      (analyzeTransaction now t user? recent).score > 70) ∧
    (processTransaction now body user? recent).isFlagged =
      decide ((analyzeTransaction now body user? recent).score > 70) := by
  constructor
  · cases user? with
    | none =>
        simp only [analyzeTransaction, errorScoreResult]
        norm_num
    | some u =>
        simp only [analyzeTransaction, analyzeTransactionCore, decide_eq_true_iff]
  · rfl

/-- C4 counterexample: with a missing user (the only throw site), the
`try/catch` of `analyzeTransaction` does not propagate the failure to the
caller — the invocation still returns a `ScoreResult`-shaped object, with
score 0, the sentinel risk factor, `isHighRisk = false` and an `error`
message, contradicting "propagated to the caller and not recovered
internally; it either returns a complete ScoreResult or fails the whole
invocation". -/
theorem analyze_error_not_propagated_cex :
    analyzeTransaction 0 baseTxn none [] =
      { score := 0
        riskFactors := ["Error analyzing transaction"]
        isHighRisk := false
        error := some "User not found" } ∧
    (analyzeTransaction 0 baseTxn none []).error ≠ none := by
  constructor
  · rfl
  · decide

/-- C4 amended: the only error condition is a missing profile; the scorer
catches it internally and converts it into the degenerate result (score 0,
risk factors `["Error analyzing transaction"]`, `isHighRisk = false`, an
error message) instead of failing the invocation, and whenever a profile is
supplied it returns the complete scoring result with no error. -/
theorem analyze_total_never_throws (now : Int) (t : Transaction) (u : User)
    (recent : List Transaction) :
    analyzeTransaction now t none recent = errorScoreResult "User not found" ∧
    (analyzeTransaction now t (some u) recent).error = none ∧
    analyzeTransaction now t (some u) recent = analyzeTransactionCore now t u recent :=
  ⟨rfl, rfl, rfl⟩

/-- C10: the administrative fraud-status update sets `isConfirmedFraud` to the
supplied boolean; the resulting `isFlagged` is the old value when the boolean
is true and `false` when it is false; and `fraudScore` and every other field
of the transaction are unchanged. -/
theorem updateFraudStatus_frame (b : Bool) (t : Transaction) :
    (updateFraudStatus b t).isConfirmedFraud = b ∧
    (updateFraudStatus b t).isFlagged = (if b then t.isFlagged else false) ∧
    (updateFraudStatus b t).fraudScore = t.fraudScore ∧
    (updateFraudStatus b t).userId = t.userId ∧
    (updateFraudStatus b t).cardLastFour = t.cardLastFour ∧
    (updateFraudStatus b t).amount = t.amount ∧
    (updateFraudStatus b t).merchantName = t.merchantName ∧
    (updateFraudStatus b t).merchantCategory = t.merchantCategory ∧
    (updateFraudStatus b t).location = t.location ∧
    (updateFraudStatus b t).timestamp = t.timestamp ∧
    (updateFraudStatus b t).ipAddress = t.ipAddress ∧
    (updateFraudStatus b t).deviceId = t.deviceId := by
  cases b <;> simp [updateFraudStatus]

/-- A transaction of amount 550 (5.5 times the base user's average of 100). -/
def txnAmount550 : Transaction := { baseTxn with amount := 550 }

/-- A transaction of amount 350 (3.5 times the base user's average of 100). -/
def txnAmount350 : Transaction := { baseTxn with amount := 350 }

/-- C3: the amount factor contributes exactly one tier's value — 0, 0.5×25,
0.8×25 or 25 — and for a strictly positive effective average, a transaction at
5.5 times the average gets the 25 tier, one at 3.5 times gets the 0.8×25 = 20
tier, and the former scores exactly 5 more than the latter: the tiers are
matched descending, first match only, never stacked. -/
theorem amount_factor_single_tier (tAny t5 t3 : Transaction) (u : User)
    (havg : 0 < jsOr u.typicalSpendingPatterns.averageTransactionAmount 100)
    (h5 : t5.amount = jsOr u.typicalSpendingPatterns.averageTransactionAmount 100 * (11 / 2))
    (h3 : t3.amount = jsOr u.typicalSpendingPatterns.averageTransactionAmount 100 * (7 / 2)) :
    ((amountFactor tAny u).1 = 0 ∨ (amountFactor tAny u).1 = weights.amount * 0.5 ∨
     (amountFactor tAny u).1 = weights.amount * 0.8 ∨ (amountFactor tAny u).1 = weights.amount) ∧
    (amountFactor t5 u).1 = weights.amount ∧
    (amountFactor t3 u).1 = weights.amount * 0.8 ∧
    (amountFactor t5 u).1 = (amountFactor t3 u).1 + 5 := by
  set a := jsOr u.typicalSpendingPatterns.averageTransactionAmount 100 with ha
  have e5 : (amountFactor t5 u).1 = weights.amount := by
    unfold amountFactor
    rw [← ha, if_pos (by rw [h5]; linarith)]
  have e3 : (amountFactor t3 u).1 = weights.amount * 0.8 := by
    unfold amountFactor
    rw [← ha, if_neg (by rw [h3]; intro hc; linarith), if_pos (by rw [h3]; linarith)]
  refine ⟨?_, e5, e3, ?_⟩
  · simp only [amountFactor]
    split
    · norm_num
    · split
      · norm_num
      · split
        · norm_num
        · norm_num
  · rw [e5, e3]; norm_num [weights.amount]

/-- C3 witness: the tier theorem applied to the base user (average 100) and
the transactions of amount 550 and 350. -/
theorem amount_factor_single_tier_witness :
    0 < jsOr baseUser.typicalSpendingPatterns.averageTransactionAmount 100 ∧
    txnAmount550.amount =
      jsOr baseUser.typicalSpendingPatterns.averageTransactionAmount 100 * (11 / 2) ∧
    txnAmount350.amount =
      jsOr baseUser.typicalSpendingPatterns.averageTransactionAmount 100 * (7 / 2) ∧
    (((amountFactor baseTxn baseUser).1 = 0 ∨
      (amountFactor baseTxn baseUser).1 = weights.amount * 0.5 ∨
      (amountFactor baseTxn baseUser).1 = weights.amount * 0.8 ∨
      (amountFactor baseTxn baseUser).1 = weights.amount) ∧
     (amountFactor txnAmount550 baseUser).1 = weights.amount ∧
     (amountFactor txnAmount350 baseUser).1 = weights.amount * 0.8 ∧
     (amountFactor txnAmount550 baseUser).1 = (amountFactor txnAmount350 baseUser).1 + 5) := by
  have h1 : 0 < jsOr baseUser.typicalSpendingPatterns.averageTransactionAmount 100 := by
    norm_num [baseUser, jsOr]
  have h2 : txnAmount550.amount =
      jsOr baseUser.typicalSpendingPatterns.averageTransactionAmount 100 * (11 / 2) := by
    norm_num [txnAmount550, baseTxn, baseUser, jsOr]
  have h3 : txnAmount350.amount =
      jsOr baseUser.typicalSpendingPatterns.averageTransactionAmount 100 * (7 / 2) := by
    norm_num [txnAmount350, baseTxn, baseUser, jsOr]
  exact ⟨h1, h2, h3, amount_factor_single_tier baseTxn txnAmount550 txnAmount350 baseUser h1 h2 h3⟩

/-- A transaction identical to `baseTxn` except that the city is the sentinel
"Online", so that every factor other than frequency contributes 0 against
`baseUser`. -/
def clockTxn : Transaction :=
  { baseTxn with location := { country := "USA", city := "Online", zip := "" } }

/-- Six prior transactions from device `dev1`, all at timestamp 0. -/
def clockHistory : List Transaction :=
  [{ baseTxn with timestamp := 0 }, { baseTxn with timestamp := 0 },
   { baseTxn with timestamp := 0 }, { baseTxn with timestamp := 0 },
   { baseTxn with timestamp := 0 }, { baseTxn with timestamp := 0 }]

/-- C5 counterexample: the scoring body reads the ambient clock (`Date.now()`
in the frequency factor), so it is not a function of (transaction, profile,
recentHistory) alone — the same three inputs scored at time 0 and at time
2 days produce different results (the six history entries at timestamp 0 fall
inside the trailing 24 hours in the first case, giving the >5-in-24h
frequency contribution of 14, and outside it in the second, giving 0). -/
theorem score_depends_on_clock_cex :
    analyzeTransactionCore 0 clockTxn baseUser clockHistory ≠
      analyzeTransactionCore (2 * 86400000) clockTxn baseUser clockHistory := by
  have h1 : (analyzeTransactionCore 0 clockTxn baseUser clockHistory).riskFactors =
      ["High transaction frequency (>5 in 24h)"] := by
    simp only [analyzeTransactionCore, amountFactor, locationFactor, categoryFactor, timeFactor,
      frequencyFactor, deviceFactor, recent24Count, clockTxn, baseUser, clockHistory, baseTxn,
      baseLocation, jsOr, jsGetHours, jsIncludes, weights.amount, weights.location,
      weights.category, weights.time, weights.frequency, weights.device]
    simp
    norm_num
  have h2 : (analyzeTransactionCore (2 * 86400000) clockTxn baseUser clockHistory).riskFactors =
      [] := by
    simp only [analyzeTransactionCore, amountFactor, locationFactor, categoryFactor, timeFactor,
      frequencyFactor, deviceFactor, recent24Count, clockTxn, baseUser, clockHistory, baseTxn,
      baseLocation, jsOr, jsGetHours, jsIncludes, weights.amount, weights.location,
      weights.category, weights.time, weights.frequency, weights.device]
    simp
    norm_num
  intro h
  rw [h, h2] at h1
  exact List.noConfusion h1

/-- C5 amended: the scoring body is a pure function of (transaction,
userProfile, recentHistory, clock); the clock enters only through the count
of recent-history entries inside the trailing 24 hours, so two invocations
whose clocks yield the same trailing-24h count return identical results. -/
theorem score_pure_given_clock (now1 now2 : Int) (t : Transaction) (u : User)
    (recent : List Transaction)
    (h : recent24Count now1 recent = recent24Count now2 recent) :
    analyzeTransactionCore now1 t u recent = analyzeTransactionCore now2 t u recent := by
  unfold analyzeTransactionCore frequencyFactor
  rw [h]

/-- C5 amended witness: the purity theorem applied at clocks 0 and one day,
with an empty recent history. -/
theorem score_pure_given_clock_witness :
    recent24Count 0 ([] : List Transaction) = recent24Count 86400000 ([] : List Transaction) ∧
    analyzeTransactionCore 0 baseTxn baseUser [] =
      analyzeTransactionCore 86400000 baseTxn baseUser [] :=
  ⟨rfl, score_pure_given_clock 0 86400000 baseTxn baseUser [] rfl⟩

/-- A user whose spending patterns carry no average-transaction-amount
baseline. -/
def noAvgUser : User :=
  { baseUser with
      typicalSpendingPatterns :=
        { averageTransactionAmount := none
          frequentCategories := ["groceries"]
          frequentLocations := []
          activeHours := { start := 8, «end» := 23 } } }

/-- C6 counterexample: a profile with no average-transaction-amount baseline
is not treated as "no signal" — the scorer substitutes the default average
100 (`averageTransactionAmount || 100`), so a transaction of amount 550
scored against such a profile receives the full amount contribution 25, not
0. -/
theorem missing_average_not_no_signal_cex :
    (amountFactor txnAmount550 noAvgUser).1 = 25 ∧
    (amountFactor txnAmount550 noAvgUser).1 ≠ 0 := by
  have h : (amountFactor txnAmount550 noAvgUser).1 = 25 := by
    simp only [amountFactor, txnAmount550, baseTxn, noAvgUser, baseUser, jsOr,
      weights.amount]
    norm_num
  exact ⟨h, by rw [h]; norm_num⟩

/-- C6 amended: with no average-transaction-amount baseline the scorer
substitutes the default average 100, so the amount factor tiers against 100:
25 above 500, 0.8×25 above 300, 0.5×25 above 200, and 0 only at or below
200. -/
theorem amount_factor_missing_average_defaults (t : Transaction) (u : User)
    (h : u.typicalSpendingPatterns.averageTransactionAmount = none) :
    (amountFactor t u).1 =
      if t.amount > 500 then weights.amount
      else if t.amount > 300 then weights.amount * 0.8
      else if t.amount > 200 then weights.amount * 0.5
      else 0 := by
  unfold amountFactor jsOr
  rw [h]
  norm_num
  split_ifs <;> norm_num

/-- C6 amended witness: the default-average theorem applied to the
no-baseline user and the transaction of amount 550. -/
theorem amount_factor_missing_average_defaults_witness :
    noAvgUser.typicalSpendingPatterns.averageTransactionAmount = none ∧
    (amountFactor txnAmount550 noAvgUser).1 =
      (if txnAmount550.amount > 500 then weights.amount
       else if txnAmount550.amount > 300 then weights.amount * 0.8
       else if txnAmount550.amount > 200 then weights.amount * 0.5
       else 0) :=
  ⟨rfl, amount_factor_missing_average_defaults txnAmount550 noAvgUser rfl⟩

/-- C7 counterexample: over a zero-transaction corpus both statistics
endpoints compute `(0 / 0 * 100).toFixed(2)`, whose value is the string
"NaN" — the division-by-zero artifact itself, not a defined sentinel such as
"0.00" or null. -/
theorem empty_corpus_percentage_artifact_cex :
    (getTransactionStats []).flaggedPercentage = "NaN" ∧
    (getFraudStatisticsSummary []).flaggedPercentage = "NaN" ∧
    ("NaN" : String) ≠ "0.00" ∧ ("NaN" : String) ≠ "null" := by
  refine ⟨?_, ?_, by decide, by decide⟩
  · simp [getTransactionStats, JSNum.div, JSNum.mul, JSNum.toFixed2]
  · simp [getFraudStatisticsSummary, JSNum.div, JSNum.mul, JSNum.toFixed2]

/-- C7 amended: aggregating a zero-transaction corpus raises no fault (the
aggregation is a total function) and returns totalTransactions = 0,
flaggedTransactions = 0, confirmedFraudTransactions = 0, and
flaggedPercentage = "NaN", the formatted 0/0 artifact, in both statistics
endpoints. -/
theorem empty_corpus_stats :
    getTransactionStats [] =
      { totalTransactions := 0, flaggedTransactions := 0, confirmedFraudTransactions := 0,
        flaggedPercentage := "NaN" } ∧
    getFraudStatisticsSummary [] =
      { totalTransactions := 0, flaggedTransactions := 0, confirmedFraudTransactions := 0,
        flaggedPercentage := "NaN" } := by
  constructor
  · simp [getTransactionStats, JSNum.div, JSNum.mul, JSNum.toFixed2]
  · simp [getFraudStatisticsSummary, JSNum.div, JSNum.mul, JSNum.toFixed2]

/-- Bounds and label-count for the amount factor: nonnegative, at most its
weight, and exactly one label when and only when it is positive. -/
theorem amountFactor_spec (t : Transaction) (u : User) :
    0 ≤ (amountFactor t u).1 ∧ (amountFactor t u).1 ≤ weights.amount ∧
    (amountFactor t u).2.length = (if 0 < (amountFactor t u).1 then 1 else 0) := by
  simp only [amountFactor]
  split
  · norm_num [weights.amount]
  · split
    · norm_num [weights.amount]
    · split
      · norm_num [weights.amount]
      · norm_num [weights.amount]

/-- Bounds and label-count for the location factor. -/
theorem locationFactor_spec (t : Transaction) (u : User) :
    0 ≤ (locationFactor t u).1 ∧ (locationFactor t u).1 ≤ weights.location ∧
    (locationFactor t u).2.length = (if 0 < (locationFactor t u).1 then 1 else 0) := by
  simp only [locationFactor]
  split
  · norm_num [weights.location]
  · split
    · norm_num [weights.location]
    · norm_num [weights.location]

/-- Bounds and label-count for the category factor. -/
theorem categoryFactor_spec (t : Transaction) (u : User) :
    0 ≤ (categoryFactor t u).1 ∧ (categoryFactor t u).1 ≤ weights.category ∧
    (categoryFactor t u).2.length = (if 0 < (categoryFactor t u).1 then 1 else 0) := by
  simp only [categoryFactor]
  split
  · norm_num [weights.category]
  · norm_num [weights.category]

/-- Bounds and label-count for the time factor. -/
theorem timeFactor_spec (t : Transaction) (u : User) :
    0 ≤ (timeFactor t u).1 ∧ (timeFactor t u).1 ≤ weights.time ∧
    (timeFactor t u).2.length = (if 0 < (timeFactor t u).1 then 1 else 0) := by
  simp only [timeFactor]
  split
  · norm_num [weights.time]
  · norm_num [weights.time]

/-- Bounds and label-count for the frequency factor. -/
theorem frequencyFactor_spec (now : Int) (recent : List Transaction) :
    0 ≤ (frequencyFactor now recent).1 ∧ (frequencyFactor now recent).1 ≤ weights.frequency ∧
    (frequencyFactor now recent).2.length =
      (if 0 < (frequencyFactor now recent).1 then 1 else 0) := by
  simp only [frequencyFactor]
  split
  · norm_num [weights.frequency]
  · split
    · norm_num [weights.frequency]
    · norm_num [weights.frequency]

/-- Bounds and label-count for the device factor. -/
theorem deviceFactor_spec (t : Transaction) (recent : List Transaction) :
    0 ≤ (deviceFactor t recent).1 ∧ (deviceFactor t recent).1 ≤ weights.device ∧
    (deviceFactor t recent).2.length = (if 0 < (deviceFactor t recent).1 then 1 else 0) := by
  simp only [deviceFactor]
  split
  · norm_num [weights.device]
  · norm_num [weights.device]

/-- C8: for every input, the score is the sum of the six independently
computed factor contributions; each contribution lies in [0, its weight]
(weights 25, 20, 15, 15, 20, 5), so the total lies in [0, 100]; and the
risk-factor list is the in-order concatenation amount → location → category →
time → frequency → device of the factor labels, each factor supplying exactly
one string when its contribution is strictly positive and none otherwise. -/
theorem score_additive_bounded_ordered (now : Int) (t : Transaction) (u : User)
    (recent : List Transaction) :
    (analyzeTransactionCore now t u recent).score =
      (amountFactor t u).1 + (locationFactor t u).1 + (categoryFactor t u).1 +
      (timeFactor t u).1 + (frequencyFactor now recent).1 + (deviceFactor t recent).1 ∧
    (0 ≤ (amountFactor t u).1 ∧ (amountFactor t u).1 ≤ weights.amount) ∧
    (0 ≤ (locationFactor t u).1 ∧ (locationFactor t u).1 ≤ weights.location) ∧
    (0 ≤ (categoryFactor t u).1 ∧ (categoryFactor t u).1 ≤ weights.category) ∧
    (0 ≤ (timeFactor t u).1 ∧ (timeFactor t u).1 ≤ weights.time) ∧
    (0 ≤ (frequencyFactor now recent).1 ∧ (frequencyFactor now recent).1 ≤ weights.frequency) ∧
    (0 ≤ (deviceFactor t recent).1 ∧ (deviceFactor t recent).1 ≤ weights.device) ∧
    0 ≤ (analyzeTransactionCore now t u recent).score ∧
    (analyzeTransactionCore now t u recent).score ≤ 100 ∧
    (analyzeTransactionCore now t u recent).riskFactors =
      (amountFactor t u).2 ++ (locationFactor t u).2 ++ (categoryFactor t u).2 ++
      (timeFactor t u).2 ++ (frequencyFactor now recent).2 ++ (deviceFactor t recent).2 ∧
    (amountFactor t u).2.length = (if 0 < (amountFactor t u).1 then 1 else 0) ∧
    (locationFactor t u).2.length = (if 0 < (locationFactor t u).1 then 1 else 0) ∧
    (categoryFactor t u).2.length = (if 0 < (categoryFactor t u).1 then 1 else 0) ∧
    (timeFactor t u).2.length = (if 0 < (timeFactor t u).1 then 1 else 0) ∧
    (frequencyFactor now recent).2.length =
      (if 0 < (frequencyFactor now recent).1 then 1 else 0) ∧
    (deviceFactor t recent).2.length = (if 0 < (deviceFactor t recent).1 then 1 else 0) := by
  obtain ⟨a0, a1, a2⟩ := amountFactor_spec t u
  obtain ⟨l0, l1, l2⟩ := locationFactor_spec t u
  obtain ⟨c0, c1, c2⟩ := categoryFactor_spec t u
  obtain ⟨t0, t1, t2⟩ := timeFactor_spec t u
  obtain ⟨f0, f1, f2⟩ := frequencyFactor_spec now recent
  obtain ⟨d0, d1, d2⟩ := deviceFactor_spec t recent
  have hscore : (analyzeTransactionCore now t u recent).score =
      (amountFactor t u).1 + (locationFactor t u).1 + (categoryFactor t u).1 +
      (timeFactor t u).1 + (frequencyFactor now recent).1 + (deviceFactor t recent).1 := rfl
  have hw : weights.amount = 25 ∧ weights.location = 20 ∧ weights.category = 15 ∧
      weights.time = 15 ∧ weights.frequency = 20 ∧ weights.device = 5 :=
    ⟨rfl, rfl, rfl, rfl, rfl, rfl⟩
  obtain ⟨w1, w2, w3, w4, w5, w6⟩ := hw
  refine ⟨hscore, ⟨a0, a1⟩, ⟨l0, l1⟩, ⟨c0, c1⟩, ⟨t0, t1⟩, ⟨f0, f1⟩, ⟨d0, d1⟩, ?_, ?_, rfl,
    a2, l2, c2, t2, f2, d2⟩
  · rw [hscore]; positivity
  · rw [hscore]
    rw [w1] at a1; rw [w2] at l1; rw [w3] at c1; rw [w4] at t1; rw [w5] at f1; rw [w6] at d1
    linarith

/-- C9: for a transaction scored with an empty recent history (a user's first
transaction), the frequency factor contributes 0, and the device factor
contributes exactly 5 if and only if the transaction's device identifier is
not the literal "unknown_device". -/
theorem first_transaction_frequency_device (now : Int) (t : Transaction) :
    (frequencyFactor now []).1 = 0 ∧
    ((deviceFactor t []).1 = 5 ↔ t.deviceId ≠ "unknown_device") := by
  constructor
  · simp [frequencyFactor, recent24Count]
  · by_cases h : t.deviceId = "unknown_device"
    · simp only [deviceFactor, h]
      norm_num [weights.device]
    · simp only [deviceFactor]
      simp [h, weights.device]

end SentriCard
